import Mathlib

/-!
Verification development for the AI-Image-Studio repository.

The repository is a browser image generation/editing studio: a React UI
(`src/App.tsx`, `src/components/ImageEditor.tsx`) drives a thin fetch
wrapper (`src/services/geminiService.ts`) which talks to a backend proxy
(`src/api/gemini.ts`) in front of the remote generative-image model.

Each definition below is a shallow embedding of a concrete function of the
source; the namespace says which file it comes from.  Network calls and
file reads are the only asynchronous suspension points of the program, so
they are modelled by passing the awaited result (or the thrown error) as an
explicit argument to the continuation of the awaiting function.
-/

/-- JavaScript `String.prototype.trim`: strips whitespace from both ends. -/
def jsTrim (s : String) : String :=
  ⟨((s.data.dropWhile Char.isWhitespace).reverse.dropWhile Char.isWhitespace).reverse⟩

/-- JavaScript `a || b` on strings: the empty string is falsy. -/
def jsOrElse (a b : String) : String :=
  if a = "" then b else a

namespace AppOrch

/-!
Embedding of the UI request orchestrator in `src/App.tsx`.

`AbortController` identity is modelled by a natural-number handle: each
`new AbortController()` yields a fresh handle, and JavaScript reference
equality `abortController === controller` becomes equality of handles.
The `abortController` identifier inside a handler is a React render-time
closure binding, not a live read of the state: the executing
`handleGenerate`/`handleEdit` instance sees the value the state had at the
render that produced it, which predates the `new AbortController()` of the
same invocation.  The completion functions therefore take that closure
snapshot as an explicit argument.
-/

/-- Identity of one `AbortController` instance. -/
abbrev HandleId := Nat

/-- Record `OriginalImage` from `src/types.ts`: the declared MIME type of the file plus
the data-URL produced by the `FileReader`. -/
structure OrigImage where
  fileType : String
  dataUrl : String
deriving DecidableEq, Repr

/-- Record `EditedResult` from `src/types.ts`. -/
structure EditedResult where
  imageUrl : String
  text : Option String
deriving DecidableEq, Repr

/-- The React state owned by the `App` component (the fields the request
lifecycle touches). -/
structure AppState where
  isLoading : Bool
  error : Option String
  abortController : Option HandleId
  generatedImageUrl : Option String
  originalImages : List OrigImage
  editedResult : Option EditedResult
deriving DecidableEq, Repr

/-- The initial state of the component. -/
def initialState : AppState :=
  { isLoading := false, error := none, abortController := none,
    generatedImageUrl := none, originalImages := [], editedResult := none }

/-- Function `handleStop` in `src/App.tsx`: if a controller is tracked, abort it,
flip loading off, set the cancellation message and drop the handle. -/
def handleStop (s : AppState) : AppState :=
  match s.abortController with
  | some _ =>
      { s with isLoading := false,
               error := some "Operation cancelled by user.",
               abortController := none }
  | none => s

/-- Default prompt substituted in `handleGenerate` when the trimmed prompt
is empty. -/
def defaultGeneratePrompt : String :=
  "A majestic lion wearing a crown, cinematic lighting, hyperrealistic"

/-- Default prompt substituted in `handleEdit` when the trimmed prompt is
empty. -/
def defaultEditPrompt : String :=
  "Improve the quality and lighting of the image."

/-- Expression `generatePrompt.trim() || default` in `handleGenerate`. -/
def effectiveGeneratePrompt (p : String) : String :=
  jsOrElse (jsTrim p) defaultGeneratePrompt

/-- Expression `editPrompt.trim() || default` in `handleEdit`. -/
def effectiveEditPrompt (p : String) : String :=
  jsOrElse (jsTrim p) defaultEditPrompt

/-- The synchronous part of `handleGenerate` before the `await`: track the
fresh controller `h`, enter the loading state, clear error and prior
result.  Returns the new state and the prompt string handed to the client
request layer. -/
def startGenerate (s : AppState) (h : HandleId) (prompt : String) :
    AppState × String :=
  ({ s with abortController := some h, isLoading := true, error := none,
            generatedImageUrl := none },
   effectiveGeneratePrompt prompt)

/-- Outcome of an awaited client-layer call, as seen by the `catch` block:
fulfilled, rejected with an error named `AbortError`, or rejected with a
generic error carrying a message. -/
inductive Outcome where
  | success (url : String)
  | abortError
  | failure (msg : String)
deriving DecidableEq, Repr

/-- The `try`/`catch`/`finally` continuation of `handleGenerate` once the
awaited call resolves.  `h` is the controller created by this invocation
and `snap` is the render-time closure value of the `abortController` state
seen by the executing handler instance — the comparison
`abortController === controller` in the `finally` block uses this
snapshot, not the current state.  The snapshot was taken before
`new AbortController()` ran, so for a fresh controller it never equals
`some h` and the guard never fires in the program.  The `finally` block
resets `isLoading` unconditionally. -/
def completeGenerate (s : AppState) (snap : Option HandleId) (h : HandleId)
    (o : Outcome) : AppState :=
  let s1 :=
    match o with
    | .success url => { s with generatedImageUrl := some url }
    | .abortError => s
    | .failure msg => { s with error := some msg }
  let s2 := { s1 with isLoading := false }
  if snap = some h then { s2 with abortController := none }
  else s2

/-- One image entry of the edit request body:
base64 data taken from the data URL after the first comma, plus the declared MIME type. -/
structure ImagePayload where
  base64Data : String
  mimeType : String
deriving DecidableEq, Repr

/-- JavaScript split-on-comma, second component, with `undefined` modelled as the empty string (the
data URLs produced by `FileReader.readAsDataURL` always contain a comma). -/
def splitCommaSecond (s : String) : String :=
  ((s.splitOn ",").drop 1).headD ""

/-- The payload mapping in `handleEdit`. -/
def imagesPayload (imgs : List OrigImage) : List ImagePayload :=
  imgs.map fun img =>
    { base64Data := splitCommaSecond img.dataUrl, mimeType := img.fileType }

/-- The synchronous part of `handleEdit` before the `await`: the zero-image
guard returns early with a validation error and no request; otherwise the
state enters loading and the request payload is produced.  The second
component is `some` exactly when a network request is issued. -/
def startEdit (s : AppState) (h : HandleId) (prompt : String) :
    AppState × Option (String × List ImagePayload) :=
  if s.originalImages.length = 0 then
    ({ s with error := some "Please upload at least one image to edit." }, none)
  else
    ({ s with abortController := some h, isLoading := true, error := none,
              editedResult := none },
     some (effectiveEditPrompt prompt, imagesPayload s.originalImages))

/-- Outcome of an awaited edit call. -/
inductive EditOutcome where
  | success (r : EditedResult)
  | abortError
  | failure (msg : String)
deriving DecidableEq, Repr

/-- The `try`/`catch`/`finally` continuation of `handleEdit`, mirroring
`completeGenerate` (same render-time closure snapshot `snap` in the
`finally`-block comparison). -/
def completeEdit (s : AppState) (snap : Option HandleId) (h : HandleId)
    (o : EditOutcome) : AppState :=
  let s1 :=
    match o with
    | .success r => { s with editedResult := some r }
    | .abortError => s
    | .failure msg => { s with error := some msg }
  let s2 := { s1 with isLoading := false }
  if snap = some h then { s2 with abortController := none }
  else s2

end AppOrch

namespace EditorUpload

open AppOrch (OrigImage EditedResult)

/-!
Embedding of `processFiles` in `src/components/ImageEditor.tsx`.

A `FileDesc` carries what the browser reports about one uploaded file: its
declared MIME type, whether the `FileReader` read succeeds, and the data
URL the read produces.  `processFiles` registers one reader per image file;
the `onloadend` callbacks push into the shared `newImages` array and the
last one to find `newImages.length === files.length` appends the whole
batch.  The callbacks are modelled as firing after the synchronous type
check pass, in file order, which fixes which `setError` write lands last:
a read-failure message overwrites an invalid-file message.
-/

/-- One uploaded file as seen by `processFiles`. -/
structure FileDesc where
  fileType : String
  readOk : Bool
  dataUrl : String
deriving DecidableEq, Repr

/-- The component state touched by `processFiles`. -/
structure EditorState where
  originalImages : List OrigImage
  error : Option String
  editedResult : Option EditedResult
deriving DecidableEq, Repr

/-- Error message for a batch that would exceed the 8-image limit. -/
def maxImagesMsg : String := "You can upload a maximum of 8 images."

/-- Error message for a file whose type is not `image/*`. -/
def invalidFilesMsg : String := "Please upload valid image files (PNG, JPG, etc.)."

/-- Error message set by the `onerror` callback of a reader. -/
def readFailMsg : String := "Failed to read an image file."

/-- The check `file.type.startsWith("image/")` from the source, stated on the character
sequences of the two strings. -/
def isImageFile (f : FileDesc) : Bool :=
  "image/".data.isPrefixOf f.fileType.data

/-- The contents of the `newImages` array once every registered reader has
fired: one entry per image-typed file whose read succeeded, in file
order. -/
def collectedImages (files : List FileDesc) : List OrigImage :=
  ((files.filter isImageFile).filter fun f => f.readOk).map fun f =>
    { fileType := f.fileType, dataUrl := f.dataUrl }

/-- The last `setError` write once the synchronous type-check pass and all
read callbacks have run: `setError(null)` first, then the synchronous pass
writes the invalid-files message for each non-image file, then each
`onerror` callback writes the read-failure message (callbacks fire after
the synchronous pass, so a read failure lands last). -/
def errorAfterChecks (files : List FileDesc) : Option String :=
  if (files.filter isImageFile).all (fun f => f.readOk) then
    if files.all isImageFile then none else some invalidFilesMsg
  else some readFailMsg

/-- Embedding of `processFiles(files)` as a state transformer: the count guard, then the
type-check pass and the read callbacks (whose net `error` write is
`errorAfterChecks`); the batch is appended only when the collected reads
reach `files.length` (the completion barrier `newImages.length ===
files.length`, unreachable as soon as one file is skipped or fails). -/
def processFiles (s : EditorState) (files : List FileDesc) : EditorState :=
  if files.length = 0 then s
  else if 8 < s.originalImages.length + files.length then
    { s with error := some maxImagesMsg }
  else
    let base := { s with error := errorAfterChecks files, editedResult := none }
    if (collectedImages files).length = files.length then
      { base with originalImages := base.originalImages ++ collectedImages files }
    else base

end EditorUpload

namespace GeminiProxy

/-!
Embedding of the backend proxy `src/api/gemini.ts`.

The remote model service is the only external collaborator; its awaited
responses are passed in as explicit arguments (`GenerateResponse` for
`ai.models.generateImages`, `Option (List Part)` for the content parts of
`ai.models.generateContent`, with `none` standing for a response missing
`candidates[0].content.parts`).
-/

/-- One entry of `response.generatedImages`: the optional nested image
object with its base64 bytes and the MIME type the service declared. -/
structure ServiceImage where
  imageBytes : Option String
  declaredMimeType : Option String
deriving DecidableEq, Repr

/-- Wrapper object `generatedImages[i]`. -/
structure GeneratedEntry where
  image : Option ServiceImage
deriving DecidableEq, Repr

/-- The awaited `generateImages` response. -/
structure GenerateResponse where
  generatedImages : List GeneratedEntry
deriving DecidableEq, Repr

/-- Function `generateImage` in `src/api/gemini.ts`: take `generatedImages[0]`,
require truthy `image.imageBytes`, and wrap the bytes in a PNG data URL
(the declared MIME type is never consulted). -/
def generateImage (resp : GenerateResponse) : Except String String :=
  match resp.generatedImages.head? with
  | none => Except.error "Image generation failed or returned no data."
  | some entry =>
    match entry.image with
    | none => Except.error "Image generation failed or returned no data."
    | some img =>
      match img.imageBytes with
      | none => Except.error "Image generation failed or returned no data."
      | some bytes =>
        if bytes = "" then
          Except.error "Image generation failed or returned no data."
        else Except.ok ("data:image/png;base64," ++ bytes)

/-- Field `part.inlineData`: base64 data plus the MIME type of a returned inline
image. -/
structure InlineData where
  data : String
  mimeType : String
deriving DecidableEq, Repr

/-- One content part of the edit response: optional inline image, optional
text.  A part with `inlineData` present is treated as an image part even if
it also carries text (`if (part.inlineData) ... else if (part.text)`). -/
structure Part where
  inlineData : Option InlineData
  text : Option String
deriving DecidableEq, Repr

/-- The data URL built for an inline-image part. -/
def inlineDataUrl (d : InlineData) : String :=
  "data:" ++ d.mimeType ++ ";base64," ++ d.data

/-- The loop body of the scan in `editImage` over the content parts, acting on
the accumulator `(imageUrl, text)`.  Each image part overwrites `imageUrl`;
each truthy text part is appended to `text` with a newline separator. -/
def scanStep (acc : Option String × Option String) (p : Part) :
    Option String × Option String :=
  match p.inlineData with
  | some d => (some (inlineDataUrl d), acc.2)
  | none =>
    match p.text with
    | some t =>
      if t = "" then acc
      else
        (acc.1,
         some ((match acc.2 with
                | some prev => prev ++ "\n"
                | none => "") ++ t))
    | none => acc

/-- The full scan of `editImage` over the returned content parts. -/
def scanParts (parts : List Part) : Option String × Option String :=
  parts.foldl scanStep (none, none)

/-- Function `editImage` in `src/api/gemini.ts`, from the awaited `generateContent`
response onwards: `none` models a response with no content parts. -/
def editImage (resp : Option (List Part)) :
    Except String AppOrch.EditedResult :=
  match resp with
  | none => Except.error "Invalid response from API."
  | some parts =>
    match scanParts parts with
    | (none, _) => Except.error "API did not return an image."
    | (some url, text) => Except.ok { imageUrl := url, text := text }

/-- The suffix appended to the edit prompt for a non-default aspect
ratio. -/
def fullEditPrompt (prompt aspectRatio : String) : String :=
  if aspectRatio = "1:1" then prompt
  else prompt ++ "\n\nEnsure the output image has a " ++ aspectRatio ++
       " aspect ratio."

end GeminiProxy

namespace GeminiProxy

/-!
The request handlers of `src/api/gemini.ts`.  `req.json()` is modelled by
an already-parsed optional body (`none` = the JSON parse threw); the
awaited remote-service responses are explicit arguments; a thrown error
anywhere inside `handlePost` is an `Except.error` that the outer `handler`
turns into a 500 response.
-/

/-- One entry of the `images` array of the edit request. -/
structure ImageData where
  base64Data : String
  mimeType : String
deriving DecidableEq, Repr

/-- The parsed JSON request body, with absent-or-falsy fields as `none`
(`if (!prompt)` treats the empty string like a missing field, so an
empty-string field is modelled as `none`; a present `images` array may be
empty, since an empty array is truthy in JavaScript). -/
structure Body where
  action : Option String
  prompt : Option String
  images : Option (List ImageData)
  aspectRatio : Option String
deriving DecidableEq, Repr

/-- An inbound HTTP request: its method and its parsed JSON body (`none`
when parsing throws). -/
structure Request where
  method : String
  body : Option Body
deriving DecidableEq, Repr

/-- The response the proxy produces: status, optional `error` body field,
optional `imageUrl`/`text` body fields, optional `Allow` header. -/
structure Response where
  status : Nat
  error : Option String
  imageUrl : Option String
  text : Option String
  allow : Option String
deriving DecidableEq, Repr

/-- Function `handlePost`: branch on the `action` discriminator; `generate` and
`edit` validate their fields and call the remote service, whose awaited
responses are the `genResp`/`editResp` arguments; any thrown error
propagates as `Except.error`. -/
def handlePost (b : Body) (genResp : GenerateResponse)
    (editResp : Option (List Part)) : Except String Response :=
  if b.action = some "generate" then
    match b.prompt with
    | none =>
      Except.ok { status := 400, error := some "Prompt is required",
                  imageUrl := none, text := none, allow := none }
    | some _ =>
      match generateImage genResp with
      | Except.error e => Except.error e
      | Except.ok url =>
        Except.ok { status := 200, error := none, imageUrl := some url,
                    text := none, allow := none }
  else if b.action = some "edit" then
    if b.prompt = none ∨ b.images = none ∨ b.aspectRatio = none then
      Except.ok { status := 400,
                  error := some "Prompt, images, and aspectRatio are required",
                  imageUrl := none, text := none, allow := none }
    else
      match editImage editResp with
      | Except.error e => Except.error e
      | Except.ok r =>
        Except.ok { status := 200, error := none, imageUrl := some r.imageUrl,
                    text := r.text, allow := none }
  else
    Except.ok { status := 400, error := some "Invalid action",
                imageUrl := none, text := none, allow := none }

/-- The message carried by the JSON-parse exception of the platform when
`req.json()` throws; its exact text comes from the runtime, not this
repository, so it is a parameterised placeholder. -/
def jsonParseErrorMsg : String := "Unexpected end of JSON input"

/-- The default export `handler`: first await client initialization
(`initError = some e` models `ensureAiClientInitialized` throwing `e`,
`none` a resolvable credential), then dispatch on the method, turning any
thrown error into a 500 response carrying that message. -/
def handler (initError : Option String) (req : Request)
    (genResp : GenerateResponse) (editResp : Option (List Part)) : Response :=
  match initError with
  | some e =>
    { status := 500, error := some e, imageUrl := none, text := none,
      allow := none }
  | none =>
    if req.method = "POST" then
      match req.body with
      | none =>
        { status := 500, error := some jsonParseErrorMsg, imageUrl := none,
          text := none, allow := none }
      | some b =>
        match handlePost b genResp editResp with
        | Except.ok r => r
        | Except.error e =>
          { status := 500, error := some e, imageUrl := none, text := none,
            allow := none }
    else
      { status := 405, error := some ("Method " ++ req.method ++ " not allowed"),
        imageUrl := none, text := none, allow := some "POST" }

end GeminiProxy

namespace GeminiService

/-!
Embedding of the client request layer `src/services/geminiService.ts`.

`fetch` is modelled by the options object the code builds for it (method,
content type, JSON body fields, and the optional `signal` entry of the
`RequestInit`) together with an awaited `FetchResponse`.  Neither
`generateImage` nor `editImage` declares a signal parameter, and neither
fetch options literal contains a `signal` key, so the constructors below
set `signal := none`; the extra argument `src/App.tsx` passes is dropped.
-/

/-- The `RequestInit` options object handed to `fetch`. -/
structure FetchOptions where
  method : String
  contentType : String
  bodyAction : String
  bodyPrompt : String
  bodyImages : Option (List GeminiProxy.ImageData)
  bodyAspectRatio : Option String
  signal : Option AppOrch.HandleId
deriving DecidableEq, Repr

/-- The options `generateImage` builds:
the POST method, the JSON content type, and the stringified generate action body. -/
def generateFetchOptions (prompt : String) : FetchOptions :=
  { method := "POST", contentType := "application/json",
    bodyAction := "generate", bodyPrompt := prompt, bodyImages := none,
    bodyAspectRatio := none, signal := none }

/-- The options `editImage` builds:
the POST method, the JSON content type, and the stringified edit action body. -/
def editFetchOptions (prompt : String) (images : List GeminiProxy.ImageData)
    (aspectRatio : String) : FetchOptions :=
  { method := "POST", contentType := "application/json",
    bodyAction := "edit", bodyPrompt := prompt, bodyImages := some images,
    bodyAspectRatio := some aspectRatio, signal := none }

/-- The parsed JSON body of a proxy response, fields optional. -/
structure JsonBody where
  error : Option String
  imageUrl : Option String
  text : Option String
deriving DecidableEq, Repr

/-- The awaited `fetch` response as `handleApiResponse` inspects it:
`ok`/`status`, whether the `Content-Type` header includes
`application/json`, and the parsed body (`none` when `response.json()`
would throw). -/
structure FetchResponse where
  ok : Bool
  status : Nat
  contentTypeJson : Bool
  jsonBody : Option JsonBody
deriving DecidableEq, Repr

/-- Placeholder for the message of the runtime exception when `response.json()` throws on
the success path (propagated, not caught, by `handleApiResponse`). -/
def jsonParseFailureMsg : String := "Unexpected end of JSON input"

/-- Function `handleApiResponse`: on a non-ok status, start from the generic
message, replace it by the `error` field of the body when the body parses and
that field is truthy (present and non-empty), and throw; on success return
the parsed JSON body (or the raw response, modelled as a field-less body,
when the content type is not JSON). -/
def handleApiResponse (r : FetchResponse) : Except String JsonBody :=
  if r.ok then
    if r.contentTypeJson then
      match r.jsonBody with
      | some b => Except.ok b
      | none => Except.error jsonParseFailureMsg
    else Except.ok { error := none, imageUrl := none, text := none }
  else
    let base := "Request failed with status " ++ toString r.status
    match r.jsonBody with
    | some b =>
      match b.error with
      | some e => Except.error (if e = "" then base else e)
      | none => Except.error base
    | none => Except.error base

/-- The service-level `generateImage` after the awaited fetch resolves:
normalize the response, then require a truthy `imageUrl` field. -/
def generateImageResult (r : FetchResponse) : Except String String :=
  match handleApiResponse r with
  | Except.error e => Except.error e
  | Except.ok b =>
    match b.imageUrl with
    | none => Except.error "Backend API did not return an image URL."
    | some u =>
      if u = "" then Except.error "Backend API did not return an image URL."
      else Except.ok u

end GeminiService

namespace GeminiProxy

/-!
Spec-side readings used to state the amended C2 and C9 claims; these follow
the wording of the spec and are compared against the embedded code above.
-/

/-- The last part of the list carrying an inline image, if any. -/
def lastInlineImage : List Part → Option InlineData
  | [] => none
  | p :: rest =>
    match lastInlineImage rest with
    | some d => some d
    | none => p.inlineData

/-- The non-empty texts of the parts not carrying an inline image, in their
original order. -/
def textPieces : List Part → List String
  | [] => []
  | p :: rest =>
    match p.inlineData with
    | some _ => textPieces rest
    | none =>
      match p.text with
      | some t => if t = "" then textPieces rest else t :: textPieces rest
      | none => textPieces rest

/-- The text pieces newline-joined in order; `none` when there are none. -/
def joinedText (parts : List Part) : Option String :=
  match textPieces parts with
  | [] => none
  | t :: ts => some (ts.foldl (fun a u => a ++ "\n" ++ u) t)

/-- The accumulator action of the text branch of `scanStep`. -/
def appendPiece (a : Option String) (t : String) : Option String :=
  some ((match a with | some prev => prev ++ "\n" | none => "") ++ t)

/-- Overwrite every MIME type the service declared in a generate response
(used to state that `generateImage` never consults it). -/
def setDeclaredMime (m : String) (resp : GenerateResponse) : GenerateResponse :=
  ⟨resp.generatedImages.map fun e =>
    ⟨e.image.map fun i => ⟨i.imageBytes, some m⟩⟩⟩

end GeminiProxy

/-! ## Theorems -/

section Theorems

open AppOrch EditorUpload

/-- Helper: trimming an all-whitespace string yields the empty string. -/
theorem jsTrim_of_all_whitespace (s : String)
    (h : ∀ c ∈ s.data, c.isWhitespace) : jsTrim s = "" := by
  unfold jsTrim
  rw [List.dropWhile_eq_nil_iff.mpr h]
  rfl

/-- Helper: a string containing a non-whitespace character does not trim to
the empty string. -/
theorem jsTrim_ne_empty_of_exists (s : String)
    (h : ∃ c ∈ s.data, ¬ c.isWhitespace) : jsTrim s ≠ "" := by
  obtain ⟨c, hmem, hnw⟩ := h
  have hmem2 : c ∈ s.data.takeWhile Char.isWhitespace ++
      s.data.dropWhile Char.isWhitespace := by
    rw [List.takeWhile_append_dropWhile]
    exact hmem
  have hdrop : ∃ x ∈ s.data.dropWhile Char.isWhitespace, ¬ x.isWhitespace := by
    rcases List.mem_append.mp hmem2 with htk | hdr
    · exact absurd (List.mem_takeWhile_imp htk) hnw
    · exact ⟨c, hdr, hnw⟩
  intro hcontra
  have hnil : ((s.data.dropWhile Char.isWhitespace).reverse.dropWhile
      Char.isWhitespace).reverse = [] := congrArg String.data hcontra
  rw [List.reverse_eq_nil_iff] at hnil
  have hall := List.dropWhile_eq_nil_iff.mp hnil
  obtain ⟨x, hx, hxn⟩ := hdrop
  exact hxn (hall x (List.mem_reverse.mpr hx))

/-- C5: for every prompt that is empty or all-whitespace, the generate flow
sends the fixed generate default and the edit flow sends the fixed edit
default; for every prompt with non-whitespace content, the trimmed
(non-empty) prompt itself is sent. -/
theorem c5_blank_prompt_gets_mode_default (p : String) :
    ((∀ c ∈ p.data, c.isWhitespace) →
      AppOrch.effectiveGeneratePrompt p = AppOrch.defaultGeneratePrompt ∧
      AppOrch.effectiveEditPrompt p = AppOrch.defaultEditPrompt) ∧
    ((∃ c ∈ p.data, ¬ c.isWhitespace) →
      jsTrim p ≠ "" ∧
      AppOrch.effectiveGeneratePrompt p = jsTrim p ∧
      AppOrch.effectiveEditPrompt p = jsTrim p) := by
  constructor
  · intro h
    have ht := jsTrim_of_all_whitespace p h
    unfold AppOrch.effectiveGeneratePrompt AppOrch.effectiveEditPrompt jsOrElse
    rw [ht]
    simp
  · intro h
    have ht := jsTrim_ne_empty_of_exists p h
    unfold AppOrch.effectiveGeneratePrompt AppOrch.effectiveEditPrompt jsOrElse
    exact ⟨ht, by simp [ht], by simp [ht]⟩

/-- Witness for C5 at the all-whitespace prompt consisting of three spaces
and at the prompt with content " hi ". -/
theorem c5_blank_prompt_gets_mode_default_witness :
    (AppOrch.effectiveGeneratePrompt "   " = AppOrch.defaultGeneratePrompt ∧
      AppOrch.effectiveEditPrompt "   " = AppOrch.defaultEditPrompt) ∧
    (jsTrim " hi " ≠ "" ∧
      AppOrch.effectiveGeneratePrompt " hi " = jsTrim " hi " ∧
      AppOrch.effectiveEditPrompt " hi " = jsTrim " hi ") :=
  ⟨(c5_blank_prompt_gets_mode_default "   ").1 (by decide),
   (c5_blank_prompt_gets_mode_default " hi ").2 ⟨'h', by decide, by decide⟩⟩

/-- C6: an edit attempt with an empty source-image list returns immediately
with the validation error, issues no network request, and does not enter
the loading state (loading and the tracked handle are untouched). -/
theorem c6_edit_zero_images_no_network (s : AppOrch.AppState)
    (h : AppOrch.HandleId) (p : String) (hz : s.originalImages = []) :
    (AppOrch.startEdit s h p).2 = none ∧
    (AppOrch.startEdit s h p).1.error =
      some "Please upload at least one image to edit." ∧
    (AppOrch.startEdit s h p).1.isLoading = s.isLoading ∧
    (AppOrch.startEdit s h p).1.abortController = s.abortController := by
  unfold AppOrch.startEdit
  rw [hz]
  simp

/-- Witness for C6 at the initial state. -/
theorem c6_edit_zero_images_no_network_witness :
    (AppOrch.startEdit AppOrch.initialState 0 "make it pop").2 = none ∧
    (AppOrch.startEdit AppOrch.initialState 0 "make it pop").1.error =
      some "Please upload at least one image to edit." ∧
    (AppOrch.startEdit AppOrch.initialState 0 "make it pop").1.isLoading =
      AppOrch.initialState.isLoading ∧
    (AppOrch.startEdit AppOrch.initialState 0 "make it pop").1.abortController =
      AppOrch.initialState.abortController :=
  c6_edit_zero_images_no_network AppOrch.initialState 0 "make it pop" rfl

end Theorems

/-- C1 counterexample: start a generate request with controller 0 from the
initial state (its handler closure holds the snapshot
`initialState.abortController`, taken before controller 0 existed), stop
it, start a new request with controller 1; when the resolution of the
superseded request arrives, its captured controller (0) is not the tracked
one (1), yet processing it still clears the loading flag of the new
request — so loading is not "only reset by a completion whose captured
handle is still the currently-tracked one". -/
theorem c1_superseded_completion_clears_loading_cex :
    ((AppOrch.startGenerate
        (AppOrch.handleStop (AppOrch.startGenerate AppOrch.initialState 0 "p").1)
        1 "q").1.isLoading = true) ∧
    ((AppOrch.startGenerate
        (AppOrch.handleStop (AppOrch.startGenerate AppOrch.initialState 0 "p").1)
        1 "q").1.abortController = some 1) ∧
    ((some 1 : Option AppOrch.HandleId) ≠ some 0) ∧
    ((AppOrch.completeGenerate
        (AppOrch.startGenerate
          (AppOrch.handleStop (AppOrch.startGenerate AppOrch.initialState 0 "p").1)
          1 "q").1
        AppOrch.initialState.abortController
        0 (AppOrch.Outcome.success "data:image/png;base64,AAAA")).isLoading
      = false) :=
  ⟨rfl, rfl, by decide, rfl⟩

/-- C1 amended: every completion clears the loading flag unconditionally,
and the `finally`-block guard compares the render-time closure snapshot of
the tracked handle against the captured controller; because the controller
is created after the snapshot is taken, the snapshot never equals it, so a
completion never changes the tracked handle — in particular the late
resolution of a superseded request does clear the loading state of a newer
request while leaving the newer handle in place. -/
theorem c1_amended_loading_cleared_unconditionally (s : AppOrch.AppState)
    (snap : Option AppOrch.HandleId) (h : AppOrch.HandleId)
    (o : AppOrch.Outcome) (oe : AppOrch.EditOutcome) :
    (AppOrch.completeGenerate s snap h o).isLoading = false ∧
    (AppOrch.completeEdit s snap h oe).isLoading = false ∧
    (snap ≠ some h →
      (AppOrch.completeGenerate s snap h o).abortController =
        s.abortController ∧
      (AppOrch.completeEdit s snap h oe).abortController =
        s.abortController) := by
  unfold AppOrch.completeGenerate AppOrch.completeEdit
  refine ⟨?_, ?_, fun hne => ⟨?_, ?_⟩⟩ <;>
    cases o <;> cases oe <;> dsimp only <;> (try (split <;> rfl)) <;> simp_all

/-- Witness for C1 amended at a state tracking controller 1 and a
completion of the request with controller 0, whose closure snapshot is the
pre-request value `none`. -/
theorem c1_amended_loading_cleared_unconditionally_witness :
    (AppOrch.completeGenerate
      (AppOrch.startGenerate AppOrch.initialState 1 "q").1 none 0
      AppOrch.Outcome.abortError).isLoading = false ∧
    (AppOrch.completeGenerate
      (AppOrch.startGenerate AppOrch.initialState 1 "q").1 none 0
      AppOrch.Outcome.abortError).abortController =
      (AppOrch.startGenerate AppOrch.initialState 1 "q").1.abortController :=
  have hmain := c1_amended_loading_cleared_unconditionally
    (AppOrch.startGenerate AppOrch.initialState 1 "q").1 none 0
    AppOrch.Outcome.abortError AppOrch.EditOutcome.abortError
  ⟨hmain.1, (hmain.2.2 (by decide)).1⟩

/-- Helper: an empty batch leaves the editor state untouched. -/
theorem processFiles_nil (s : EditorUpload.EditorState)
    (files : List EditorUpload.FileDesc) (h : files.length = 0) :
    EditorUpload.processFiles s files = s := by
  unfold EditorUpload.processFiles
  rw [if_pos h]

/-- Helper: a batch that would exceed 8 images only sets the limit
error. -/
theorem processFiles_over_limit (s : EditorUpload.EditorState)
    (files : List EditorUpload.FileDesc) (h0 : ¬ files.length = 0)
    (h8 : 8 < s.originalImages.length + files.length) :
    EditorUpload.processFiles s files =
      { s with error := some EditorUpload.maxImagesMsg } := by
  unfold EditorUpload.processFiles
  rw [if_neg h0, if_pos h8]

/-- C4: a batch that would push the source-image count above 8 is rejected
wholesale — the list is unchanged and the limit error is set — and after
any upload operation the source-image count stays at most 8. -/
theorem c4_upload_limit_enforced (s : EditorUpload.EditorState)
    (files : List EditorUpload.FileDesc)
    (hb : s.originalImages.length ≤ 8) :
    (8 < s.originalImages.length + files.length →
      (EditorUpload.processFiles s files).originalImages = s.originalImages ∧
      (EditorUpload.processFiles s files).error =
        some EditorUpload.maxImagesMsg) ∧
    (EditorUpload.processFiles s files).originalImages.length ≤ 8 := by
  by_cases h0 : files.length = 0
  · rw [processFiles_nil s files h0]
    exact ⟨fun hgt => absurd hgt (by omega), hb⟩
  · by_cases h8 : 8 < s.originalImages.length + files.length
    · rw [processFiles_over_limit s files h0 h8]
      exact ⟨fun _ => ⟨rfl, rfl⟩, hb⟩
    · refine ⟨fun hgt => absurd hgt h8, ?_⟩
      unfold EditorUpload.processFiles
      rw [if_neg h0, if_neg h8]
      dsimp only
      split
      · next hbar =>
          simp only [List.length_append]
          omega
      · exact hb

/-- Witness for C4 at a state holding 7 images and a batch of 2. -/
theorem c4_upload_limit_enforced_witness :
    ((EditorUpload.processFiles
        ⟨List.replicate 7 ⟨"image/png", "u"⟩, none, none⟩
        (List.replicate 2 ⟨"image/png", true, "v"⟩)).originalImages =
      (⟨List.replicate 7 ⟨"image/png", "u"⟩, none, none⟩ :
        EditorUpload.EditorState).originalImages ∧
     (EditorUpload.processFiles
        ⟨List.replicate 7 ⟨"image/png", "u"⟩, none, none⟩
        (List.replicate 2 ⟨"image/png", true, "v"⟩)).error =
      some EditorUpload.maxImagesMsg) ∧
    (EditorUpload.processFiles
        ⟨List.replicate 7 ⟨"image/png", "u"⟩, none, none⟩
        (List.replicate 2 ⟨"image/png", true, "v"⟩)).originalImages.length ≤ 8 :=
  have hmain := c4_upload_limit_enforced
    ⟨List.replicate 7 ⟨"image/png", "u"⟩, none, none⟩
    (List.replicate 2 ⟨"image/png", true, "v"⟩) (by decide)
  ⟨hmain.1 (by decide), hmain.2⟩

/-- C10 counterexample: two batches containing a non-image file for which
the error set is not the invalid-image-files message — a 9-file batch
(preempted by the count-limit message) and a 2-file batch whose image file
fails to read (the read-failure message lands last). -/
theorem c10_nonimage_batch_error_cex :
    ((List.replicate 8 (⟨"image/png", true, "u"⟩ : EditorUpload.FileDesc) ++
        ([⟨"text/plain", true, "u"⟩] : List EditorUpload.FileDesc)).any
          (fun f => ! EditorUpload.isImageFile f) = true) ∧
    ((EditorUpload.processFiles (⟨[], none, none⟩ : EditorUpload.EditorState)
        (List.replicate 8 (⟨"image/png", true, "u"⟩ : EditorUpload.FileDesc) ++
          ([⟨"text/plain", true, "u"⟩] : List EditorUpload.FileDesc))).error =
      some EditorUpload.maxImagesMsg) ∧
    ((EditorUpload.processFiles (⟨[], none, none⟩ : EditorUpload.EditorState)
        ([⟨"text/plain", true, "u"⟩, ⟨"image/png", false, "u"⟩] : List EditorUpload.FileDesc)).error =
      some EditorUpload.readFailMsg) ∧
    EditorUpload.maxImagesMsg ≠ EditorUpload.invalidFilesMsg ∧
    EditorUpload.readFailMsg ≠ EditorUpload.invalidFilesMsg := by
  refine ⟨by decide, by decide, by decide, by decide, by decide⟩

/-- C10 amended: for every batch containing at least one non-image file, no
file from the batch is appended (the completion barrier compares the
collected image reads against the full batch size, which a skipped file
makes unreachable); moreover, when the batch passes the 8-image count check
and every image file in it reads successfully, the error set is the
invalid-image-files message. -/
theorem c10_amended_nonimage_batch (s : EditorUpload.EditorState)
    (files : List EditorUpload.FileDesc)
    (hbad : ∃ f ∈ files, ¬ EditorUpload.isImageFile f) :
    (EditorUpload.processFiles s files).originalImages = s.originalImages ∧
    (s.originalImages.length + files.length ≤ 8 →
      (files.filter EditorUpload.isImageFile).all (fun f => f.readOk) = true →
      (EditorUpload.processFiles s files).error =
        some EditorUpload.invalidFilesMsg) := by
  have hne : files ≠ [] := by
    obtain ⟨f, hf, _⟩ := hbad
    exact List.ne_nil_of_mem hf
  have h0 : ¬ files.length = 0 := by
    simpa [List.length_eq_zero] using hne
  have hlt : (EditorUpload.collectedImages files).length < files.length := by
    unfold EditorUpload.collectedImages
    calc (((files.filter EditorUpload.isImageFile).filter
            fun f => f.readOk).map fun f =>
              ({ fileType := f.fileType, dataUrl := f.dataUrl } :
                AppOrch.OrigImage)).length
        ≤ (files.filter EditorUpload.isImageFile).length := by
          rw [List.length_map]
          exact List.length_filter_le _ _
      _ < files.length := List.length_filter_lt_length_iff_exists.mpr hbad
  have hbar : ¬ (EditorUpload.collectedImages files).length = files.length := by
    omega
  constructor
  · by_cases h8 : 8 < s.originalImages.length + files.length
    · rw [processFiles_over_limit s files h0 h8]
    · unfold EditorUpload.processFiles
      rw [if_neg h0, if_neg h8]
      dsimp only
      rw [if_neg hbar]
  · intro hle hall
    have h8 : ¬ 8 < s.originalImages.length + files.length := by omega
    have hnall : ¬ files.all EditorUpload.isImageFile = true := by
      rw [List.all_eq_true]
      push_neg
      obtain ⟨f, hf, hni⟩ := hbad
      exact ⟨f, hf, by simpa using hni⟩
    unfold EditorUpload.processFiles
    rw [if_neg h0, if_neg h8]
    dsimp only
    rw [if_neg hbar]
    unfold EditorUpload.errorAfterChecks
    rw [if_pos hall, if_neg hnall]

/-- Witness for C10 amended at the empty editor state and a two-file batch
whose first file is not an image. -/
theorem c10_amended_nonimage_batch_witness :
    (EditorUpload.processFiles (⟨[], none, none⟩ : EditorUpload.EditorState)
        ([⟨"text/plain", true, "u"⟩, ⟨"image/png", true, "d"⟩] :
          List EditorUpload.FileDesc)).originalImages = [] ∧
    (EditorUpload.processFiles (⟨[], none, none⟩ : EditorUpload.EditorState)
        ([⟨"text/plain", true, "u"⟩, ⟨"image/png", true, "d"⟩] :
          List EditorUpload.FileDesc)).error =
      some EditorUpload.invalidFilesMsg :=
  have hmain := c10_amended_nonimage_batch
    (⟨[], none, none⟩ : EditorUpload.EditorState)
    ([⟨"text/plain", true, "u"⟩, ⟨"image/png", true, "d"⟩] :
      List EditorUpload.FileDesc)
    ⟨⟨"text/plain", true, "u"⟩, by decide, by decide⟩
  ⟨hmain.1, hmain.2 (by decide) (by decide)⟩

/-- C2 counterexample: for the part list [image PNG "AAA", empty text,
text "x", image JPEG "BBB"], the scan yields the LAST inline image (the
JPEG) rather than the first, and drops the empty text part instead of
newline-joining all text parts. -/
theorem c2_first_image_selected_cex :
    GeminiProxy.editImage (some
      [⟨some ⟨"AAA", "image/png"⟩, none⟩, ⟨none, some ""⟩,
       ⟨none, some "x"⟩, ⟨some ⟨"BBB", "image/jpeg"⟩, none⟩]) =
      Except.ok ⟨"data:image/jpeg;base64,BBB", some "x"⟩ ∧
    ("data:image/jpeg;base64,BBB" : String) ≠ "data:image/png;base64,AAA" ∧
    (some "x" : Option String) ≠ some ("" ++ "\n" ++ "x") :=
  ⟨rfl, by decide, by decide⟩

/-- Helper: the fold of the scan, run from any accumulator, keeps the URL of the
last inline-image part (falling back to the accumulated one) and extends
the accumulated text with the non-empty texts of the non-image parts. -/
theorem foldl_scanStep_spec (parts : List GeminiProxy.Part) :
    ∀ acc : Option String × Option String,
      parts.foldl GeminiProxy.scanStep acc =
        ((match GeminiProxy.lastInlineImage parts with
          | some d => some (GeminiProxy.inlineDataUrl d)
          | none => acc.1),
         (GeminiProxy.textPieces parts).foldl GeminiProxy.appendPiece acc.2) := by
  induction parts with
  | nil => intro acc; rfl
  | cons p rest ih =>
    intro acc
    rw [List.foldl_cons, ih]
    cases hd : p.inlineData with
    | some d =>
      simp only [GeminiProxy.scanStep, GeminiProxy.lastInlineImage,
        GeminiProxy.textPieces, hd]
      cases GeminiProxy.lastInlineImage rest <;> rfl
    | none =>
      cases ht : p.text with
      | some t =>
        by_cases hte : t = ""
        · simp only [GeminiProxy.scanStep, GeminiProxy.lastInlineImage,
            GeminiProxy.textPieces, hd, ht, if_pos hte]
          cases GeminiProxy.lastInlineImage rest <;> rfl
        · simp only [GeminiProxy.scanStep, GeminiProxy.lastInlineImage,
            GeminiProxy.textPieces, hd, ht, if_neg hte, List.foldl_cons]
          cases GeminiProxy.lastInlineImage rest <;> rfl
      | none =>
        simp only [GeminiProxy.scanStep, GeminiProxy.lastInlineImage,
          GeminiProxy.textPieces, hd, ht]
        cases GeminiProxy.lastInlineImage rest <;> rfl

/-- Helper: folding `appendPiece` from an existing accumulated text is the
plain newline-join continued from that text. -/
theorem foldl_appendPiece_some (ts : List String) :
    ∀ a : String,
      ts.foldl GeminiProxy.appendPiece (some a) =
        some (ts.foldl (fun x u => x ++ "\n" ++ u) a) := by
  induction ts with
  | nil => intro a; rfl
  | cons t ts ih =>
    intro a
    rw [List.foldl_cons, List.foldl_cons]
    exact ih (a ++ "\n" ++ t)

/-- Helper: folding `appendPiece` from the empty accumulator computes the
spec-side newline-join. -/
theorem foldl_appendPiece_none (ts : List String) :
    ts.foldl GeminiProxy.appendPiece none =
      (match ts with
       | [] => none
       | t :: ts' => some (ts'.foldl (fun x u => x ++ "\n" ++ u) t)) := by
  cases ts with
  | nil => rfl
  | cons t ts' =>
    rw [List.foldl_cons]
    have h1 : GeminiProxy.appendPiece none t = some t := rfl
    rw [h1]
    exact foldl_appendPiece_some ts' t

/-- C2 amended: the `editImage` function of the proxy selects the LAST inline-image part
of the returned content list (not the first), returns as text the
non-empty text parts newline-joined in their original order (`none` when
there are none), and raises the service error when the list contains no
inline-image part. -/
theorem c2_amended_scan_takes_last_image (parts : List GeminiProxy.Part) :
    GeminiProxy.editImage (some parts) =
      (match GeminiProxy.lastInlineImage parts with
       | none => Except.error "API did not return an image."
       | some d =>
         Except.ok ⟨GeminiProxy.inlineDataUrl d, GeminiProxy.joinedText parts⟩) := by
  unfold GeminiProxy.editImage GeminiProxy.scanParts
  dsimp only
  rw [foldl_scanStep_spec parts (none, none)]
  cases hl : GeminiProxy.lastInlineImage parts with
  | none =>
    simp only
  | some d =>
    simp only
    rw [foldl_appendPiece_none]
    unfold GeminiProxy.joinedText
    cases GeminiProxy.textPieces parts <;> rfl

/-- C9: every successful proxy generate result is exactly the fixed PNG
data-URL prefix followed by the bytes the service returned, and the
declared MIME type never influences the result. -/
theorem c9_generate_png_data_url (resp : GeminiProxy.GenerateResponse)
    (s : String) (h : GeminiProxy.generateImage resp = Except.ok s) :
    (∃ entry img bytes,
      resp.generatedImages.head? = some entry ∧
      GeminiProxy.GeneratedEntry.image entry = some img ∧
      GeminiProxy.ServiceImage.imageBytes img = some bytes ∧
      bytes ≠ "" ∧ s = "data:image/png;base64," ++ bytes) ∧
    (∀ m, GeminiProxy.generateImage (GeminiProxy.setDeclaredMime m resp) =
      GeminiProxy.generateImage resp) := by
  constructor
  · unfold GeminiProxy.generateImage at h
    cases he : resp.generatedImages.head? with
    | none => rw [he] at h; exact absurd h (by simp)
    | some entry =>
      rw [he] at h
      dsimp only at h
      cases hi : entry.image with
      | none => rw [hi] at h; exact absurd h (by simp)
      | some img =>
        rw [hi] at h
        dsimp only at h
        cases hb : img.imageBytes with
        | none => rw [hb] at h; exact absurd h (by simp)
        | some bytes =>
          rw [hb] at h
          dsimp only at h
          by_cases hz : bytes = ""
          · rw [if_pos hz] at h; exact absurd h (by simp)
          · rw [if_neg hz] at h
            refine ⟨entry, img, bytes, rfl, hi, hb, hz, ?_⟩
            injection h with h2
            exact h2.symm
  · intro m
    unfold GeminiProxy.generateImage GeminiProxy.setDeclaredMime
    rw [List.head?_map]
    cases resp.generatedImages.head? with
    | none => rfl
    | some entry =>
      obtain ⟨ei⟩ := entry
      cases ei with
      | none => rfl
      | some img =>
        obtain ⟨ib, mt⟩ := img
        cases ib <;> rfl

/-- Witness for C9 at a one-image response whose declared MIME type is
JPEG. -/
theorem c9_generate_png_data_url_witness :
    (∃ entry img bytes,
      (⟨[⟨some ⟨some "QUJD", some "image/jpeg"⟩⟩]⟩ :
        GeminiProxy.GenerateResponse).generatedImages.head? = some entry ∧
      GeminiProxy.GeneratedEntry.image entry = some img ∧
      GeminiProxy.ServiceImage.imageBytes img = some bytes ∧
      bytes ≠ "" ∧
      "data:image/png;base64," ++ "QUJD" = "data:image/png;base64," ++ bytes) ∧
    (∀ m, GeminiProxy.generateImage
        (GeminiProxy.setDeclaredMime m
          ⟨[⟨some ⟨some "QUJD", some "image/jpeg"⟩⟩]⟩) =
      GeminiProxy.generateImage ⟨[⟨some ⟨some "QUJD", some "image/jpeg"⟩⟩]⟩) :=
  c9_generate_png_data_url ⟨[⟨some ⟨some "QUJD", some "image/jpeg"⟩⟩]⟩
    ("data:image/png;base64," ++ "QUJD") rfl

/-- C3: neither service-layer fetch carries an abort signal — the options
objects built for the generate and edit fetches contain no `signal` entry,
so a caller-triggered cancellation handle never reaches the network
operation (supporting the code-bug verdict: `src/App.tsx` passes
`controller.signal`, which the service functions do not accept). -/
theorem c3_fetch_options_lack_signal (p : String)
    (imgs : List GeminiProxy.ImageData) (ar : String) :
    (GeminiService.generateFetchOptions p).signal = none ∧
    (GeminiService.editFetchOptions p imgs ar).signal = none :=
  ⟨rfl, rfl⟩

/-- C8: with the AI client initialized, every non-POST request gets a 405
response advertising POST in the Allow header, and every POST request whose
parsed JSON body carries an `action` other than exactly "generate" or
"edit" (including a missing one) gets a 400 response. -/
theorem c8_method_and_action_validation (req : GeminiProxy.Request)
    (genResp : GeminiProxy.GenerateResponse)
    (editResp : Option (List GeminiProxy.Part)) :
    (req.method ≠ "POST" →
      (GeminiProxy.handler none req genResp editResp).status = 405 ∧
      (GeminiProxy.handler none req genResp editResp).allow = some "POST") ∧
    (∀ b, req.method = "POST" → req.body = some b →
      (∀ a, b.action = some a → a ≠ "generate" ∧ a ≠ "edit") →
      (GeminiProxy.handler none req genResp editResp).status = 400 ∧
      (GeminiProxy.handler none req genResp editResp).error =
        some "Invalid action") := by
  constructor
  · intro hm
    unfold GeminiProxy.handler
    dsimp only
    rw [if_neg hm]
    exact ⟨rfl, rfl⟩
  · intro b hm hb ha
    have h1 : b.action ≠ some "generate" := fun he => (ha "generate" he).1 rfl
    have h2 : b.action ≠ some "edit" := fun he => (ha "edit" he).2 rfl
    unfold GeminiProxy.handler
    dsimp only
    rw [if_pos hm, hb]
    dsimp only
    unfold GeminiProxy.handlePost
    rw [if_neg h1, if_neg h2]
    exact ⟨rfl, rfl⟩

/-- Witness for C8 at a GET request and at a POST request with action
"delete". -/
theorem c8_method_and_action_validation_witness :
    ((GeminiProxy.handler none ⟨"GET", none⟩ ⟨[]⟩ none).status = 405 ∧
      (GeminiProxy.handler none ⟨"GET", none⟩ ⟨[]⟩ none).allow = some "POST") ∧
    ((GeminiProxy.handler none
        ⟨"POST", some ⟨some "delete", none, none, none⟩⟩ ⟨[]⟩ none).status = 400 ∧
      (GeminiProxy.handler none
        ⟨"POST", some ⟨some "delete", none, none, none⟩⟩ ⟨[]⟩ none).error =
        some "Invalid action") :=
  ⟨(c8_method_and_action_validation ⟨"GET", none⟩ ⟨[]⟩ none).1 (by decide),
   (c8_method_and_action_validation
      ⟨"POST", some ⟨some "delete", none, none, none⟩⟩ ⟨[]⟩ none).2
      ⟨some "delete", none, none, none⟩ rfl rfl
      (by intro a hsome; injection hsome with hx; subst hx; exact ⟨by decide, by decide⟩)⟩

/-- C7 counterexample: a 500 response whose JSON body carries an `error`
field that is present and parsable but empty — the thrown message is the
generic fallback, not the (empty) `error` field, because the code tests
truthiness rather than presence. -/
theorem c7_empty_error_field_cex :
    GeminiService.handleApiResponse ⟨false, 500, true, some ⟨some "", none, none⟩⟩ =
      Except.error "Request failed with status 500" ∧
    ("Request failed with status 500" : String) ≠ "" :=
  ⟨rfl, by decide⟩

/-- C7 amended: on every non-success response, the thrown message is the
`error` field of the body when it is present, parsable and non-empty, and
otherwise exactly "Request failed with status N"; in particular an HTTP 500
with body error "model declined" (a generic error, not an AbortError)
leaves the error state of the orchestrator exactly "model declined". -/
theorem c7_amended_error_message (r : GeminiService.FetchResponse)
    (hok : r.ok = false) :
    (∀ b e, r.jsonBody = some b → b.error = some e → e ≠ "" →
      GeminiService.handleApiResponse r = Except.error e) ∧
    (r.jsonBody = none →
      GeminiService.handleApiResponse r =
        Except.error ("Request failed with status " ++ toString r.status)) ∧
    (∀ b, r.jsonBody = some b → (b.error = none ∨ b.error = some "") →
      GeminiService.handleApiResponse r =
        Except.error ("Request failed with status " ++ toString r.status)) ∧
    (GeminiService.handleApiResponse
        ⟨false, 500, true, some ⟨some "model declined", none, none⟩⟩ =
      Except.error "model declined" ∧
     ∀ s snap h, (AppOrch.completeGenerate s snap h
        (AppOrch.Outcome.failure "model declined")).error =
          some "model declined") := by
  have hnok : ¬ r.ok = true := by rw [hok]; exact Bool.false_ne_true
  refine ⟨?_, ?_, ?_, rfl, ?_⟩
  · intro b e hb he hne
    unfold GeminiService.handleApiResponse
    rw [if_neg hnok, hb]
    dsimp only
    rw [he]
    dsimp only
    rw [if_neg hne]
  · intro hb
    unfold GeminiService.handleApiResponse
    rw [if_neg hnok, hb]
  · intro b hb herr
    unfold GeminiService.handleApiResponse
    rw [if_neg hnok, hb]
    dsimp only
    rcases herr with he | he
    · rw [he]
    · rw [he]
      dsimp only
      rw [if_pos rfl]
  · intro s snap h
    unfold AppOrch.completeGenerate
    dsimp only
    split <;> rfl

/-- Witness for C7 amended at a 404 with body error "nope". -/
theorem c7_amended_error_message_witness :
    GeminiService.handleApiResponse ⟨false, 404, true, some ⟨some "nope", none, none⟩⟩ =
      Except.error "nope" :=
  (c7_amended_error_message ⟨false, 404, true, some ⟨some "nope", none, none⟩⟩
      rfl).1 ⟨some "nope", none, none⟩ "nope" rfl rfl (by decide)
